import Mathlib

/-!
Verification of the session-lifecycle subsystem of the ADFrontend repository.

The development shallowly embeds the relevant parts of three source files:

  src/utils/auth.js     session store, countdown timer, AuthUtils lifecycle
  src/services/api.js   the API layer (logout path)
  src/app.js            the App controller (timer management, logout,
                        session-expiry and password-change handlers)

Conventions of the embedding:

  * localStorage is a record with the two keys the code uses
    (sessionId, currentUser); absence of a key is Option.none.
  * Network calls are suspensions whose outcome is passed in as an
    explicit value of type Except String R: Except.error models the
    request throwing, Except.ok models a delivered response.
  * JSON.parse of the persisted user record is passed in as an explicit
    total function String to Option User: none models a parse failure
    (corrupted JSON), which the code catches.
  * The host timer registry is a list of live timers; clearTimeout and
    clearInterval both remove a timer of either kind from the shared
    registry, as the HTML timer specification prescribes, so both are
    modelled by a single removal operation.
  * Wall-clock time is in integer milliseconds.  The countdown trace
    normalises the arming instant to time 0; ticks of the 1000 ms
    interval occur at 1000, 2000, and so on.
-/

namespace ADFrontend

/-- User records are opaque pass-through data for the session layer; we
model a user by its serialized JSON text, which is all this core ever
stores or forwards. -/
abbrev User := String

/-- The two localStorage keys the session store uses
(auth.js lines 290 to 320).  Absence of a key is none. -/
structure Storage where
  sessionId : Option String
  currentUser : Option String
deriving DecidableEq

/-- Return value of getSession when a sessionId is persisted
(auth.js line 314). -/
structure Session where
  sessionId : String
  user : Option User
deriving DecidableEq

/-- Embedding of getSession (auth.js lines 299 to 315).  The parse
argument models JSON.parse on the stored currentUser text; a parse
failure (none) is caught by the try block and leaves user at null. -/
def getSession (parse : String → Option User) (st : Storage) : Option Session :=
  match st.sessionId with
  | none => none
  | some sid =>
    let user : Option User :=
      match st.currentUser with
      | none => none
      | some s => parse s
    some ⟨sid, user⟩

/-- Response shape of the remote logout operation. -/
structure LogoutResponse where
  success : Bool
  message : Option String
deriving DecidableEq

/-- Embedding of ApiService.logout (api.js lines 90 to 103).  On a
delivered response the session id is cleared and the response returned;
when the request throws, the catch clause clears the session id and
rethrows the same error. -/
def apiLogout (remote : Except String LogoutResponse) (st : Storage) :
    Except String LogoutResponse × Storage :=
  match remote with
  | .ok r => (.ok r, { st with sessionId := none })
  | .error e => (.error e, { st with sessionId := none })

/-- In-memory state of the AuthUtils singleton (auth.js lines 4 to 9)
together with the storage it manipulates. -/
structure AuthState where
  currentUser : Option User
  sessionTimerActive : Bool
  sessionExpiresAt : Option Int
  storage : Storage
deriving DecidableEq

/-- Embedding of AuthUtils.cleanup (auth.js lines 191 to 200): resets the
in-memory fields, stops the AuthUtils display timer, and removes both
persisted keys. -/
def cleanup (_st : AuthState) : AuthState :=
  { currentUser := none
    sessionTimerActive := false
    sessionExpiresAt := none
    storage := ⟨none, none⟩ }

/-- Embedding of AuthUtils.setCurrentUser (auth.js lines 22 to 29): a
present user is stored in memory and persisted; a null user removes the
persisted record. -/
def setCurrentUser (u : Option User) (st : AuthState) : AuthState :=
  match u with
  | some user =>
    { st with currentUser := some user
              storage := { st.storage with currentUser := some user } }
  | none =>
    { st with currentUser := none
              storage := { st.storage with currentUser := none } }

/-- Response shape of the remote validate operation; dataUser models
response.data?.User, covering both a missing data object and a missing
User field by none. -/
structure ValidateResponse where
  success : Bool
  dataUser : Option User
deriving DecidableEq

/-- Embedding of AuthUtils.validateSession (auth.js lines 154 to 170).
The function is total: the catch clause turns a thrown request into
cleanup plus false, so no outcome escapes as an exception. -/
def authValidateSession (remote : Except String ValidateResponse) (st : AuthState) :
    Bool × AuthState :=
  match remote with
  | .ok r =>
    match r.success, r.dataUser with
    | true, some u => (true, setCurrentUser (some u) st)
    | true, none => (false, cleanup st)
    | false, _ => (false, cleanup st)
  | .error _ => (false, cleanup st)

/-- Embedding of AuthUtils.logout (auth.js lines 136 to 151): the remote
call goes through the API layer, a thrown error is caught and logged, and
the finally clause always runs cleanup.  The subsequent page switch is
pure rendering and is not modelled. -/
def authLogout (remote : Except String LogoutResponse) (st : AuthState) : AuthState :=
  let storage1 := (apiLogout remote st.storage).2
  cleanup { st with storage := storage1 }

/-! ## Timer coordinator (auth.js lines 322 to 362) -/

/-- Warning threshold of the countdown: 5 minutes in milliseconds
(auth.js line 324). -/
def warningTimeMs : Int := 5 * 60 * 1000

/-- Interval of the auto-refresh timer: 15 minutes in milliseconds
(auth.js line 343). -/
def autoRefreshIntervalMs : Int := 15 * 60 * 1000

/-- Observable outcome of one tick of the countdown interval. -/
inductive TickOutcome
  | expire
  | warn (minutesLeft : Nat)
  | quiet
deriving DecidableEq

/-- Math.ceil of timeLeftMs / 60000 for a positive time left
(auth.js line 334). -/
def minutesLeftOf (timeLeftMs : Int) : Nat :=
  (timeLeftMs.toNat + 59999) / 60000

/-- Embedding of the body of the interval callback created by
startSessionTimer (auth.js lines 326 to 337): if the deadline has passed
the interval clears itself and onExpire runs; inside the trailing 5
minute window onWarning runs with the rounded-up minutes left; otherwise
the tick is silent. -/
def countdownTick (expiresAtMs nowMs : Int) : TickOutcome :=
  let timeLeft := expiresAtMs - nowMs
  if timeLeft ≤ 0 then .expire
  else if timeLeft ≤ warningTimeMs then .warn (minutesLeftOf timeLeft)
  else .quiet

/-- Trace of a countdown interval: whether the interval is still
registered, how many times onExpire has run, and the arguments of the
onWarning calls in order. -/
structure CountdownTrace where
  alive : Bool
  expireCount : Nat
  warnCalls : List Nat
deriving DecidableEq

/-- One tick of the countdown at second n after arming.  A cleared
interval fires no further ticks, which the alive guard captures; the
expire branch models the clearInterval the callback performs before
invoking onExpire (auth.js line 331). -/
def countdownStep (expiresInSec : Int) (n : Nat) (tr : CountdownTrace) : CountdownTrace :=
  if tr.alive then
    match countdownTick (expiresInSec * 1000) ((n : Int) * 1000) with
    | .expire => ⟨false, tr.expireCount + 1, tr.warnCalls⟩
    | .warn m => ⟨true, tr.expireCount, tr.warnCalls ++ [m]⟩
    | .quiet => ⟨true, tr.expireCount, tr.warnCalls⟩
  else tr

/-- Trace of the countdown armed by startSessionTimer with the given
expiresIn seconds, after n ticks of its 1000 ms interval.  The arming
instant is normalised to time 0, so the deadline is expiresInSec * 1000
and tick k occurs at k * 1000; the time left at each tick is independent
of the arming instant, so this loses no generality. -/
def countdownRun (expiresInSec : Int) : Nat → CountdownTrace
  | 0 => ⟨true, 0, []⟩
  | n + 1 => countdownStep expiresInSec (n + 1) (countdownRun expiresInSec n)

/-! ## App controller (app.js) -/

/-- Toast severities used by showToast (app.js lines 13 to 18). -/
inductive ToastType
  | SUCCESS
  | ERROR
  | WARNING
  | INFO
deriving DecidableEq

/-- A toast notification as surfaced by showToast. -/
structure Toast where
  title : String
  message : String
  type : ToastType
deriving DecidableEq

/-- Toast surfaced by handleSessionExpired (app.js line 278). -/
def sessionExpiredToast : Toast := ⟨"Session Expired", "Please login again", .WARNING⟩

/-- Toast surfaced by the success path of handleLogout (app.js line 334). -/
def logoutSuccessToast : Toast := ⟨"Success", "Logged out successfully", .INFO⟩

/-- Toast surfaced by the failure path of handleLogout (app.js line 337). -/
def logoutFailedToast : Toast := ⟨"Error", "Logout failed", .ERROR⟩

/-- Kind of a live timer in the host registry: the expiry countdown with
its absolute deadline, or the repeating auto-refresh interval. -/
inductive TimerKind
  | countdown (expiresAtMs : Int)
  | refresh
deriving DecidableEq

/-- A live timer: its host handle and its kind. -/
structure Timer where
  id : Nat
  kind : TimerKind
deriving DecidableEq

/-- State of the App controller (app.js lines 24 to 30) together with the
storage, the host timer registry, a fresh-handle counter, the surfaced
toasts and the arguments of the showSessionWarning calls. -/
structure AppState where
  isAuthenticated : Bool
  sessionTimer : Option Nat
  autoRefreshTimer : Option Nat
  storage : Storage
  activeTimers : List Timer
  nextTimerId : Nat
  toasts : List Toast
  warnings : List Nat
deriving DecidableEq

/-- Session info argument of startSessionManagement: a bare number, an
object with optional expiry fields, or a nullish value
(app.js lines 263 to 273). -/
inductive SessionInfoInput
  | num (n : Int)
  | info (expiresIn : Option Int) (expiresInSeconds : Option Int) (expiresAtMs : Option Int)
  | nullish
deriving DecidableEq

/-- Embedding of App.getExpiresInSeconds (app.js lines 263 to 273). -/
def getExpiresInSeconds (nowMs : Int) : SessionInfoInput → Option Int
  | .num n => some n
  | .nullish => none
  | .info expiresIn expiresInSeconds expiresAtMs =>
    match expiresIn with
    | some n => some n
    | none =>
      match expiresInSeconds with
      | some n => some n
      | none =>
        match expiresAtMs with
        | some t =>
          let ms := t - nowMs
          some (if 0 < ms then ms / 1000 else 0)
        | none => none

/-- Clearing a timer handle: clearTimeout and clearInterval both remove
the named timer of either kind from the shared host registry, so one
removal models both (app.js lines 232 to 233). -/
def removeTimerId (i : Option Nat) (l : List Timer) : List Timer :=
  match i with
  | none => l
  | some handle => l.filter (fun t => t.id ≠ handle)

/-- Embedding of App.startSessionManagement (app.js lines 230 to 261):
clear both existing timers, derive the seconds until expiry, return
without arming when it is unknown or not positive, otherwise register a
fresh countdown (with deadline now + seconds * 1000, auth.js line 323)
and a fresh auto-refresh interval and record their handles. -/
def startSessionManagement (input : SessionInfoInput) (nowMs : Int) (st : AppState) : AppState :=
  let timers1 := removeTimerId st.autoRefreshTimer (removeTimerId st.sessionTimer st.activeTimers)
  let st1 := { st with activeTimers := timers1 }
  match getExpiresInSeconds nowMs input with
  | none => st1
  | some e =>
    if e ≤ 0 then st1
    else
      let cid := st1.nextTimerId
      let rid := st1.nextTimerId + 1
      { st1 with
          sessionTimer := some cid
          autoRefreshTimer := some rid
          activeTimers := st1.activeTimers ++ [⟨cid, .countdown (nowMs + e * 1000)⟩, ⟨rid, .refresh⟩]
          nextTimerId := st1.nextTimerId + 2 }

/-- Number of live countdown timers in the registry. -/
def countdownCount (st : AppState) : Nat :=
  (st.activeTimers.filter (fun t =>
    match t.kind with | .countdown _ => true | .refresh => false)).length

/-- Number of live auto-refresh timers in the registry. -/
def refreshCount (st : AppState) : Nat :=
  (st.activeTimers.filter (fun t =>
    match t.kind with | .countdown _ => false | .refresh => true)).length

/-- Every live timer is one the controller currently holds a handle to.
This holds initially (no timers) and is re-established by every arming
path of the controller. -/
def timersOwned (st : AppState) : Prop :=
  ∀ t ∈ st.activeTimers, some t.id = st.sessionTimer ∨ some t.id = st.autoRefreshTimer

/-- Embedding of App.handleSessionExpired (app.js lines 275 to 279):
clear the persisted session, switch to the unauthenticated UI, surface
the distinct session-expired toast.  No timer is touched here. -/
def handleSessionExpired (st : AppState) : AppState :=
  { st with
      storage := ⟨none, none⟩
      isAuthenticated := false
      toasts := st.toasts ++ [sessionExpiredToast] }

/-- Embedding of App.handleLogout (app.js lines 328 to 341).  The remote
call runs through the API layer; only on a delivered response does the
handler clear the persisted session, switch to the unauthenticated UI and
surface the success toast.  When the request throws, the catch clause
surfaces only the failure toast: storage keeps whatever the API layer
left, the authentication flag is unchanged, and no timer is touched. -/
def handleLogout (remote : Except String LogoutResponse) (st : AppState) : AppState :=
  match apiLogout remote st.storage with
  | (.ok _, _) =>
    { st with
        storage := ⟨none, none⟩
        isAuthenticated := false
        toasts := st.toasts ++ [logoutSuccessToast] }
  | (.error _, storage1) =>
    { st with
        storage := storage1
        toasts := st.toasts ++ [logoutFailedToast] }

/-- Removal of a single timer from the registry, as performed by the
clearInterval inside the countdown callback (auth.js line 331). -/
def removeTimer (i : Nat) (st : AppState) : AppState :=
  { st with activeTimers := st.activeTimers.filter (fun t => t.id ≠ i) }

/-- Whether the timer with the given handle is still registered; a
cleared timer fires no further ticks. -/
def timerAlive (i : Nat) (st : AppState) : Bool :=
  st.activeTimers.any (fun t => t.id = i)

/-- One tick of the countdown armed by App.startSessionManagement, wired
to the App callbacks (app.js lines 241 to 249): expiry clears the
interval and runs handleSessionExpired; a warning tick runs
showSessionWarning, recorded by its minutes argument. -/
def fireCountdown (i : Nat) (expiresAtMs nowMs : Int) (st : AppState) : AppState :=
  if timerAlive i st then
    match countdownTick expiresAtMs nowMs with
    | .expire => handleSessionExpired (removeTimer i st)
    | .warn m => { st with warnings := st.warnings ++ [m] }
    | .quiet => st
  else st

/-! ## Password-change handlers (app.js lines 343 to 419) -/

/-- Response shape of the remote change-password operation. -/
structure ChangePasswordResponse where
  success : Bool
  message : Option String
deriving DecidableEq

/-- Observable outcome of a password-change submission: whether the
remote changePassword call was reached, the delays of the forced logouts
scheduled by setTimeout, and the error message surfaced, if any. -/
structure PwChangeOutcome where
  networkCalled : Bool
  scheduledLogoutDelaysMs : List Int
  errorShown : Option String
deriving DecidableEq

/-- Embedding of App.handlePasswordChange (app.js lines 343 to 372).  The
only client-side gate is the mismatch check; on a delivered response the
handler shows success and schedules one forced logout after 3000 ms
without inspecting the response body; a thrown request surfaces its
message. -/
def handlePasswordChange (newPassword confirmPassword : String)
    (remote : Except String ChangePasswordResponse) : PwChangeOutcome :=
  if newPassword ≠ confirmPassword then
    ⟨false, [], some "Passwords do not match"⟩
  else
    match remote with
    | .ok _ => ⟨true, [3000], none⟩
    | .error e => ⟨true, [], some e⟩

/-- Embedding of App.handleChangePasswordForm (app.js lines 374 to 419).
Client-side gates: all three fields non-empty, then new and confirm must
match; past the gates the remote call runs, and only a delivered response
with success set schedules the forced logout after 2000 ms. -/
def handleChangePasswordForm (currentPassword newPassword confirmPassword : String)
    (remote : Except String ChangePasswordResponse) : PwChangeOutcome :=
  if currentPassword = "" ∨ newPassword = "" ∨ confirmPassword = "" then
    ⟨false, [], some "Please fill in all fields"⟩
  else if newPassword ≠ confirmPassword then
    ⟨false, [], some "New passwords do not match"⟩
  else
    match remote with
    | .ok r =>
      if r.success then ⟨true, [2000], none⟩
      else ⟨true, [], some (r.message.getD "Failed to change password")⟩
    | .error e => ⟨true, [], some e⟩

/-! ## Concrete states used by the examples -/

/-- A fresh, unauthenticated controller with an empty timer registry. -/
def freshAppState : AppState :=
  { isAuthenticated := false
    sessionTimer := none
    autoRefreshTimer := none
    storage := ⟨none, none⟩
    activeTimers := []
    nextTimerId := 0
    toasts := []
    warnings := [] }

/-- An authenticated controller with a persisted session and both timers
armed, as left by startSessionManagement after a login with a 1800 second
expiry. -/
def armedAppState : AppState :=
  { isAuthenticated := true
    sessionTimer := some 0
    autoRefreshTimer := some 1
    storage := ⟨some "sess-1", some "alice"⟩
    activeTimers := [⟨0, .countdown 1800000⟩, ⟨1, .refresh⟩]
    nextTimerId := 2
    toasts := []
    warnings := [] }

/-- A logged-in AuthUtils state with a persisted session. -/
def sampleAuthState : AuthState :=
  { currentUser := some "alice"
    sessionTimerActive := true
    sessionExpiresAt := some 1800000
    storage := ⟨some "sess-1", some "alice"⟩ }

/-! ## Claims -/

/-- C10: every execution path through ApiService.logout removes the
persisted sessionId: a delivered response is returned and a thrown
request is rethrown unchanged, and in both cases the sessionId key is
gone afterwards. -/
theorem apiLogout_always_clears_sessionId
    (remote : Except String LogoutResponse) (st : Storage) :
    (apiLogout remote st).1 = remote ∧ ((apiLogout remote st).2).sessionId = none := by
  cases remote <;> exact ⟨rfl, rfl⟩

/-- C7: getSession returns none exactly when no sessionId is persisted;
with a persisted sessionId it returns the session whose user is the
parse of the persisted record, and in particular a corrupted (unparsable)
or absent currentUser degrades to a null user instead of an error. -/
theorem getSession_degrades_gracefully
    (parse : String → Option User) (st : Storage) :
    (st.sessionId = none → getSession parse st = none)
    ∧ (∀ sid, st.sessionId = some sid →
        getSession parse st = some ⟨sid, st.currentUser.bind parse⟩)
    ∧ (∀ sid s, st.sessionId = some sid → st.currentUser = some s → parse s = none →
        getSession parse st = some ⟨sid, none⟩) := by
  obtain ⟨sid?, cu?⟩ := st
  refine ⟨?_, ?_, ?_⟩
  · rintro rfl
    cases cu? <;> rfl
  · rintro sid rfl
    cases cu? <;> rfl
  · rintro sid s rfl h hp
    simp only at h
    subst h
    simp [getSession, hp]

/-- Witness for C7: a persisted sessionId with corrupted JSON for the
user record yields the session with a null user, not an error. -/
theorem getSession_degrades_gracefully_witness :
    getSession (fun _ => none) ⟨some "abc123", some "not-json"⟩
      = some ⟨"abc123", none⟩ :=
  (getSession_degrades_gracefully (fun _ => none)
    ⟨some "abc123", some "not-json"⟩).2.2 "abc123" "not-json" rfl rfl rfl

/-- C3: AuthUtils.validateSession is a total boolean probe.  For every
delivered success response carrying a user payload it refreshes the local
user record to that payload and returns true; it returns true in no other
case; and whenever it reports false the state was cleaned up and
getSession yields none afterwards. -/
theorem validateSession_boolean_probe
    (remote : Except String ValidateResponse) (st : AuthState)
    (parse : String → Option User) :
    (∀ r u, remote = .ok r → r.success = true → r.dataUser = some u →
      authValidateSession remote st = (true, setCurrentUser (some u) st)
      ∧ ((authValidateSession remote st).2).currentUser = some u)
    ∧ ((authValidateSession remote st).1 = true →
      ∃ r u, remote = .ok r ∧ r.success = true ∧ r.dataUser = some u)
    ∧ ((authValidateSession remote st).1 = false →
        (authValidateSession remote st).2 = cleanup st ∧
        getSession parse ((authValidateSession remote st).2).storage = none) := by
  refine ⟨?_, ?_, ?_⟩
  · rintro ⟨succ, du⟩ u rfl rfl rfl
    exact ⟨rfl, rfl⟩
  · cases remote with
    | error e => intro h; simp [authValidateSession] at h
    | ok r =>
      obtain ⟨succ, du⟩ := r
      cases succ
      · intro h; simp [authValidateSession] at h
      · cases du with
        | none => intro h; simp [authValidateSession] at h
        | some u => exact fun _ => ⟨⟨true, some u⟩, u, rfl, rfl, rfl⟩
  · cases remote with
    | error e => exact fun _ => ⟨rfl, rfl⟩
    | ok r =>
      obtain ⟨succ, du⟩ := r
      cases succ
      · exact fun _ => ⟨rfl, rfl⟩
      · cases du with
        | none => exact fun _ => ⟨rfl, rfl⟩
        | some u => intro h; simp [authValidateSession] at h

/-- Witness for C3: a delivered success response with a user payload
makes validateSession return true with the user record refreshed, and a
delivered response lacking a user payload makes it report false and
leaves getSession at none. -/
theorem validateSession_boolean_probe_witness :
    (authValidateSession (.ok ⟨true, some "bob"⟩) sampleAuthState
        = (true, setCurrentUser (some "bob") sampleAuthState)
      ∧ ((authValidateSession (.ok ⟨true, some "bob"⟩) sampleAuthState).2).currentUser
          = some "bob")
    ∧ ((authValidateSession (.ok ⟨true, none⟩) sampleAuthState).2 = cleanup sampleAuthState
      ∧ getSession some ((authValidateSession (.ok ⟨true, none⟩) sampleAuthState).2).storage
          = none) :=
  ⟨(validateSession_boolean_probe (.ok ⟨true, some "bob"⟩) sampleAuthState some).1
      ⟨true, some "bob"⟩ "bob" rfl rfl rfl,
   (validateSession_boolean_probe (.ok ⟨true, none⟩) sampleAuthState some).2.2 rfl⟩

/-- C9: a successful password change schedules exactly one forced logout
in both handlers, with a delay of 3000 ms (handlePasswordChange) or 2000
ms (handleChangePasswordForm); both delays lie in the 2 to 3 second
range and are below the 15 minute auto-refresh interval. -/
theorem password_change_schedules_logout
    (currentPassword newPassword : String) (r : ChangePasswordResponse)
    (hcur : currentPassword ≠ "") (hnew : newPassword ≠ "") (hsucc : r.success = true) :
    (∃ d, (handlePasswordChange newPassword newPassword (.ok r)).scheduledLogoutDelaysMs = [d]
      ∧ 2000 ≤ d ∧ d ≤ 3000 ∧ d < autoRefreshIntervalMs)
    ∧ (∃ d, (handleChangePasswordForm currentPassword newPassword newPassword
          (.ok r)).scheduledLogoutDelaysMs = [d]
      ∧ 2000 ≤ d ∧ d ≤ 3000 ∧ d < autoRefreshIntervalMs) := by
  constructor
  · exact ⟨3000, by simp [handlePasswordChange], by norm_num, by norm_num,
      by norm_num [autoRefreshIntervalMs]⟩
  · refine ⟨2000, ?_, by norm_num, by norm_num, by norm_num [autoRefreshIntervalMs]⟩
    simp [handleChangePasswordForm, hcur, hnew, hsucc]

/-- Witness for C9: a concrete successful change through both handlers
schedules the single 3000 ms and 2000 ms forced logouts. -/
theorem password_change_schedules_logout_witness :
    ("oldpw" : String) ≠ "" ∧ ("Newpass1" : String) ≠ ""
    ∧ (∃ d, (handlePasswordChange "Newpass1" "Newpass1"
          (.ok ⟨true, none⟩)).scheduledLogoutDelaysMs = [d]
        ∧ 2000 ≤ d ∧ d ≤ 3000 ∧ d < autoRefreshIntervalMs)
    ∧ (∃ d, (handleChangePasswordForm "oldpw" "Newpass1" "Newpass1"
          (.ok ⟨true, none⟩)).scheduledLogoutDelaysMs = [d]
        ∧ 2000 ≤ d ∧ d ≤ 3000 ∧ d < autoRefreshIntervalMs) :=
  ⟨by decide, by decide,
   (password_change_schedules_logout "oldpw" "Newpass1" ⟨true, none⟩
      (by decide) (by decide) rfl).1,
   (password_change_schedules_logout "oldpw" "Newpass1" ⟨true, none⟩
      (by decide) (by decide) rfl).2⟩

/-- C1 counterexample: with a persisted user record and an authenticated
controller, a thrown remote logout call leaves App.handleLogout with the
persisted currentUser still in place and the controller still
authenticated, so the claim that every logout execution clears both
persisted fields and transitions to Unauthenticated is false on this
input. -/
theorem handleLogout_failure_keeps_user_cex :
    (handleLogout (.error "Network unreachable") armedAppState).storage.currentUser
        = some "alice"
    ∧ (handleLogout (.error "Network unreachable") armedAppState).isAuthenticated = true :=
  ⟨rfl, rfl⟩

/-- C1 amended: AuthUtils.logout clears both persisted session fields on
every execution, remote failure included; App.handleLogout clears both
fields and transitions to Unauthenticated only on a delivered response,
while on a thrown request the persisted sessionId is still removed by the
API layer but the persisted currentUser and the authenticated state are
left unchanged. -/
theorem logout_local_cleanup_amended
    (remote : Except String LogoutResponse) (e : String)
    (r : LogoutResponse) (ast : AuthState) (st : AppState) :
    ((authLogout remote ast).storage = ⟨none, none⟩
      ∧ (authLogout remote ast).currentUser = none)
    ∧ ((handleLogout (.ok r) st).storage = ⟨none, none⟩
      ∧ (handleLogout (.ok r) st).isAuthenticated = false)
    ∧ ((handleLogout (.error e) st).storage.sessionId = none
      ∧ (handleLogout (.error e) st).storage.currentUser = st.storage.currentUser
      ∧ (handleLogout (.error e) st).isAuthenticated = st.isAuthenticated) := by
  refine ⟨⟨?_, ?_⟩, ⟨rfl, rfl⟩, rfl, rfl, rfl⟩ <;> cases remote <;> rfl

/-- C8 counterexample: a change-password submission whose matching new
password has length 3 passes every client-side gate of
handleChangePasswordForm and reaches the remote call, and
handlePasswordChange has no empty-field gate at all, so empty matching
passwords also reach the remote call; the claim that a length below 8 or
empty required fields always short-circuit before the network is false on
these inputs. -/
theorem short_password_reaches_network_cex :
    (handleChangePasswordForm "oldpw" "abc" "abc" (.ok ⟨true, none⟩)).networkCalled = true
    ∧ ("abc" : String).length < 8
    ∧ (handlePasswordChange "" "" (.ok ⟨true, none⟩)).networkCalled = true := by
  refine ⟨by decide, by decide, by decide⟩

/-- C8 amended: the implemented client-side gates do short-circuit before
the network call: a new/confirm mismatch in either handler and an empty
required field in handleChangePasswordForm never reach the remote call.
There is no client-side minimum-length gate, and handlePasswordChange has
no empty-field gate: any matching pair of passwords, whatever its length,
proceeds to the remote call. -/
theorem password_validation_gates_amended
    (cur n c : String) (r : Except String ChangePasswordResponse) :
    (n ≠ c → (handlePasswordChange n c r).networkCalled = false)
    ∧ ((cur = "" ∨ n = "" ∨ c = "") →
        (handleChangePasswordForm cur n c r).networkCalled = false)
    ∧ (cur ≠ "" → n ≠ "" → n ≠ c →
        (handleChangePasswordForm cur n c r).networkCalled = false)
    ∧ ((handlePasswordChange n n r).networkCalled = true)
    ∧ (cur ≠ "" → n ≠ "" →
        (handleChangePasswordForm cur n n r).networkCalled = true) := by
  refine ⟨fun hm => ?_, fun he => ?_, fun h1 h2 hm => ?_, ?_, fun h1 h2 => ?_⟩
  · simp [handlePasswordChange, hm]
  · simp [handleChangePasswordForm, he]
  · by_cases hc : c = "" <;> simp [handleChangePasswordForm, h1, h2, hm, hc]
  · cases r <;> simp [handlePasswordChange]
  · cases r with
    | ok resp => by_cases hs : resp.success <;> simp [handleChangePasswordForm, h1, h2, hs]
    | error e => simp [handleChangePasswordForm, h1, h2]

/-- Witness for the amended C8: concrete inputs exercising each gate and
each pass-through. -/
theorem password_validation_gates_amended_witness :
    ("a" : String) ≠ "b" ∧ ("x" : String) ≠ "" ∧ ("abc" : String) ≠ ""
    ∧ (handlePasswordChange "a" "b" (.ok ⟨true, none⟩)).networkCalled = false
    ∧ (handleChangePasswordForm "" "a" "a" (.ok ⟨true, none⟩)).networkCalled = false
    ∧ (handleChangePasswordForm "x" "a" "b" (.ok ⟨true, none⟩)).networkCalled = false
    ∧ (handlePasswordChange "abc" "abc" (.ok ⟨true, none⟩)).networkCalled = true
    ∧ (handleChangePasswordForm "x" "abc" "abc" (.ok ⟨true, none⟩)).networkCalled = true :=
  ⟨by decide, by decide, by decide,
   (password_validation_gates_amended "x" "a" "b" (.ok ⟨true, none⟩)).1 (by decide),
   (password_validation_gates_amended "" "a" "a" (.ok ⟨true, none⟩)).2.1 (Or.inl rfl),
   (password_validation_gates_amended "x" "a" "b" (.ok ⟨true, none⟩)).2.2.1
     (by decide) (by decide) (by decide),
   (password_validation_gates_amended "x" "abc" "abc" (.ok ⟨true, none⟩)).2.2.2.1,
   (password_validation_gates_amended "x" "abc" "abc" (.ok ⟨true, none⟩)).2.2.2.2
     (by decide) (by decide)⟩

/-- C2 counterexample: after a successful App.handleLogout from a state
with both timers armed, both timers are still registered, and the next
countdown tick at the deadline is not a no-op: it surfaces a further
toast.  This falsifies the claim that logout deterministically stops both
timers and that later ticks have no effect. -/
theorem handleLogout_leaves_timers_cex :
    (handleLogout (.ok ⟨true, none⟩) armedAppState).activeTimers
        = armedAppState.activeTimers
    ∧ armedAppState.activeTimers ≠ []
    ∧ (fireCountdown 0 1800000 1800000
          (handleLogout (.ok ⟨true, none⟩) armedAppState)).toasts
        ≠ (handleLogout (.ok ⟨true, none⟩) armedAppState).toasts := by
  refine ⟨rfl, by decide, by decide⟩

/-- C2 amended: neither App.handleLogout nor App.handleSessionExpired
cancels any timer, so both timers stay registered across logout and
expiry; a countdown tick that fires afterwards is not a no-op: once its
deadline has passed it clears only itself and runs handleSessionExpired,
clearing the session again, forcing Unauthenticated and surfacing the
expired toast.  Timers are only cancelled when startSessionManagement
re-arms them or when the countdown expires. -/
theorem logout_timer_noncancellation_amended
    (remote : Except String LogoutResponse) (st st2 : AppState)
    (i : Nat) (d now : Int)
    (halive : timerAlive i st2 = true)
    (hexp : countdownTick d now = .expire) :
    (handleLogout remote st).activeTimers = st.activeTimers
    ∧ (handleSessionExpired st).activeTimers = st.activeTimers
    ∧ (fireCountdown i d now st2).toasts = st2.toasts ++ [sessionExpiredToast]
    ∧ (fireCountdown i d now st2).isAuthenticated = false
    ∧ (fireCountdown i d now st2).storage = ⟨none, none⟩ := by
  refine ⟨?_, rfl, ?_, ?_, ?_⟩
  · cases remote <;> rfl
  all_goals simp [fireCountdown, halive, hexp, handleSessionExpired, removeTimer]

/-- Witness for the amended C2: the armed controller state, whose
countdown (handle 0, deadline 1800000) is alive, ticking at its deadline
after a logout that left the timers registered. -/
theorem logout_timer_noncancellation_amended_witness :
    timerAlive 0 armedAppState = true
    ∧ countdownTick 1800000 1800000 = .expire
    ∧ (fireCountdown 0 1800000 1800000 armedAppState).toasts
        = armedAppState.toasts ++ [sessionExpiredToast]
    ∧ (fireCountdown 0 1800000 1800000 armedAppState).isAuthenticated = false :=
  ⟨by decide, by decide,
   (logout_timer_noncancellation_amended (.ok ⟨true, none⟩) armedAppState armedAppState
      0 1800000 1800000 (by decide) (by decide)).2.2.1,
   (logout_timer_noncancellation_amended (.ok ⟨true, none⟩) armedAppState armedAppState
      0 1800000 1800000 (by decide) (by decide)).2.2.2.1⟩

/-- Any countdown deadline less than or equal to the tick instant makes
the tick expire; in particular a non-positive expiresIn expires at the
very first tick of the 1000 ms interval. -/
theorem countdownTick_expire_of_nonpos (e : Int) (n : Nat)
    (he : e ≤ 0) (hn : 1 ≤ n) :
    countdownTick (e * 1000) ((n : Int) * 1000) = .expire := by
  have h : e * 1000 - (n : Int) * 1000 ≤ 0 := by
    have hn1 : (1 : Int) ≤ (n : Int) := by exact_mod_cast hn
    nlinarith
  simp [countdownTick, h]

/-- C4: a strictly negative expiresIn makes the countdown fire onExpire
at the very first tick of its interval and never warn, and its whole tick
trace is identical to the trace of a countdown armed with expiresIn
clamped to zero: the negative duration behaves exactly as immediate
expiry, and no negative-duration timer is ever scheduled since the
interval cadence is the fixed 1000 ms. -/
theorem negative_expiry_immediate_expire (e : Int) (he : e < 0) :
    countdownTick (e * 1000) 1000 = .expire
    ∧ ∀ n : Nat, countdownRun e n = countdownRun 0 n := by
  have he0 : e ≤ 0 := le_of_lt he
  constructor
  · have := countdownTick_expire_of_nonpos e 1 he0 (le_refl 1)
    simpa using this
  · intro n
    induction n with
    | zero => rfl
    | succ k ih =>
      show countdownStep e (k + 1) (countdownRun e k)
          = countdownStep 0 (k + 1) (countdownRun 0 k)
      rw [ih]
      unfold countdownStep
      rw [countdownTick_expire_of_nonpos e (k + 1) he0 (by omega),
          countdownTick_expire_of_nonpos 0 (k + 1) (le_refl 0) (by omega)]

/-- Witness for C4: the countdown armed with expiresIn equal to minus
five expires at its first tick, and its trace agrees with the
zero-duration trace after three ticks. -/
theorem negative_expiry_immediate_expire_witness :
    ((-5 : Int) < 0)
    ∧ countdownTick ((-5) * 1000) 1000 = .expire
    ∧ countdownRun (-5) 3 = countdownRun 0 3 :=
  ⟨by decide,
   (negative_expiry_immediate_expire (-5) (by decide)).1,
   (negative_expiry_immediate_expire (-5) (by decide)).2 3⟩

/-- Membership after clearing a handle: a timer survives exactly when it
was live and is not the cleared handle. -/
theorem mem_removeTimerId (t : Timer) (i : Option Nat) (l : List Timer) :
    t ∈ removeTimerId i l ↔ t ∈ l ∧ some t.id ≠ i := by
  cases i with
  | none => simp [removeTimerId]
  | some handle => simp [removeTimerId, List.mem_filter]

/-- Clearing both held handles empties a registry whose every live timer
is held by one of them. -/
theorem timersOwned_clear (st : AppState) (h : timersOwned st) :
    removeTimerId st.autoRefreshTimer (removeTimerId st.sessionTimer st.activeTimers)
      = [] := by
  rw [List.eq_nil_iff_forall_not_mem]
  intro t ht
  rw [mem_removeTimerId] at ht
  obtain ⟨ht1, hna⟩ := ht
  rw [mem_removeTimerId] at ht1
  obtain ⟨hmem, hns⟩ := ht1
  rcases h t hmem with h1 | h1
  · exact hns h1
  · exact hna h1

/-- Arming from a registry whose timers are all held by the controller:
when the derived expiry is a positive number of seconds, the prior timers
are cleared first and exactly the two fresh timers remain, with their
handles recorded. -/
theorem startSessionManagement_arms (st : AppState) (input : SessionInfoInput)
    (now e : Int) (hown : timersOwned st)
    (hg : getExpiresInSeconds now input = some e) (hpos : 0 < e) :
    startSessionManagement input now st =
      { st with
          sessionTimer := some st.nextTimerId
          autoRefreshTimer := some (st.nextTimerId + 1)
          activeTimers := [⟨st.nextTimerId, .countdown (now + e * 1000)⟩,
                           ⟨st.nextTimerId + 1, .refresh⟩]
          nextTimerId := st.nextTimerId + 2 } := by
  have hclear := timersOwned_clear st hown
  simp only [startSessionManagement, hclear, hg]
  rw [if_neg (not_le.mpr hpos)]
  simp

/-- C5: re-arming the timer path twice in succession from a controller
that holds every live timer leaves exactly one live countdown (the one of
the second arming, with its fresh handle and deadline) and exactly one
live auto-refresh timer: each arming clears the prior instances first, so
no duplicate timers survive. -/
theorem rearm_single_timers
    (st : AppState) (in1 in2 : SessionInfoInput) (now1 now2 e1 e2 : Int)
    (hown : timersOwned st)
    (hg1 : getExpiresInSeconds now1 in1 = some e1) (hpos1 : 0 < e1)
    (hg2 : getExpiresInSeconds now2 in2 = some e2) (hpos2 : 0 < e2) :
    (startSessionManagement in2 now2 (startSessionManagement in1 now1 st)).activeTimers
      = [⟨st.nextTimerId + 2, .countdown (now2 + e2 * 1000)⟩,
         ⟨st.nextTimerId + 3, .refresh⟩]
    ∧ countdownCount (startSessionManagement in2 now2
        (startSessionManagement in1 now1 st)) = 1
    ∧ refreshCount (startSessionManagement in2 now2
        (startSessionManagement in1 now1 st)) = 1 := by
  have h1 := startSessionManagement_arms st in1 now1 e1 hown hg1 hpos1
  have hown1 : timersOwned (startSessionManagement in1 now1 st) := by
    rw [h1]
    intro t ht
    simp only [List.mem_cons, List.not_mem_nil, or_false] at ht
    rcases ht with rfl | rfl
    · exact Or.inl rfl
    · exact Or.inr rfl
  have h2 := startSessionManagement_arms (startSessionManagement in1 now1 st)
    in2 now2 e2 hown1 hg2 hpos2
  rw [h2, h1]
  refine ⟨?_, ?_, ?_⟩ <;>
    simp [countdownCount, refreshCount, Nat.add_assoc]

/-- Witness for C5: two consecutive armings of a fresh controller, first
for 1800 then for 3600 seconds, leave exactly the second arming's
countdown and refresh timers. -/
theorem rearm_single_timers_witness :
    timersOwned freshAppState
    ∧ getExpiresInSeconds 0 (.num 1800) = some 1800 ∧ (0 : Int) < 1800
    ∧ getExpiresInSeconds 0 (.num 3600) = some 3600 ∧ (0 : Int) < 3600
    ∧ (startSessionManagement (.num 3600) 0
          (startSessionManagement (.num 1800) 0 freshAppState)).activeTimers
        = [⟨freshAppState.nextTimerId + 2, .countdown (0 + 3600 * 1000)⟩,
           ⟨freshAppState.nextTimerId + 3, .refresh⟩]
    ∧ countdownCount (startSessionManagement (.num 3600) 0
          (startSessionManagement (.num 1800) 0 freshAppState)) = 1
    ∧ refreshCount (startSessionManagement (.num 3600) 0
          (startSessionManagement (.num 1800) 0 freshAppState)) = 1 :=
  have hown : timersOwned freshAppState := by
    intro t ht
    simp [freshAppState] at ht
  ⟨hown, rfl, by decide, rfl, by decide,
   (rearm_single_timers freshAppState (.num 1800) (.num 3600) 0 0 1800 3600
      hown rfl (by decide) rfl (by decide)).1,
   (rearm_single_timers freshAppState (.num 1800) (.num 3600) 0 0 1800 3600
      hown rfl (by decide) rfl (by decide)).2.1,
   (rearm_single_timers freshAppState (.num 1800) (.num 3600) 0 0 1800 3600
      hown rfl (by decide) rfl (by decide)).2.2⟩

/-- Unfolding of one step of the countdown trace. -/
theorem countdownRun_succ (e : Int) (n : Nat) :
    countdownRun e (n + 1) = countdownStep e (n + 1) (countdownRun e n) := rfl

/-- A tick strictly before the deadline never expires. -/
theorem countdownTick_not_expire_of_pos (d t : Int) (h : 0 < d - t) :
    countdownTick d t ≠ .expire := by
  have h1 : ¬ (d - t ≤ 0) := not_le.mpr h
  simp only [countdownTick, h1, if_false]
  split <;> simp

/-- A cleared countdown ignores further ticks. -/
theorem countdownStep_dead (e : Int) (n : Nat) (tr : CountdownTrace)
    (h : tr.alive = false) : countdownStep e n tr = tr := by
  unfold countdownStep
  simp [h]

/-- A non-expiring tick leaves the interval registered and onExpire
uninvoked. -/
theorem countdownStep_not_expire (e : Int) (n : Nat) (tr : CountdownTrace)
    (h : countdownTick (e * 1000) ((n : Int) * 1000) ≠ .expire) :
    (countdownStep e n tr).alive = tr.alive
    ∧ (countdownStep e n tr).expireCount = tr.expireCount := by
  unfold countdownStep
  cases ha : tr.alive with
  | false => simp [ha]
  | true =>
    cases hout : countdownTick (e * 1000) ((n : Int) * 1000) with
    | expire => exact absurd hout h
    | warn m => simp [ha, hout]
    | quiet => simp [ha, hout]

/-- An expiring tick on a live countdown clears the interval and runs
onExpire once. -/
theorem countdownStep_expire (e : Int) (n : Nat) (tr : CountdownTrace)
    (ha : tr.alive = true)
    (h : countdownTick (e * 1000) ((n : Int) * 1000) = .expire) :
    countdownStep e n tr = ⟨false, tr.expireCount + 1, tr.warnCalls⟩ := by
  unfold countdownStep
  simp [ha, h]

/-- A warning tick on a live countdown appends its minutes argument. -/
theorem countdownStep_warn (e : Int) (n : Nat) (tr : CountdownTrace) (m : Nat)
    (ha : tr.alive = true)
    (h : countdownTick (e * 1000) ((n : Int) * 1000) = .warn m) :
    countdownStep e n tr = ⟨true, tr.expireCount, tr.warnCalls ++ [m]⟩ := by
  unfold countdownStep
  simp [ha, h]

/-- Up to second 1799 the 1800 second countdown is still registered and
onExpire has never run. -/
theorem countdownRun_1800_alive (n : Nat) :
    n ≤ 1799 → (countdownRun 1800 n).alive = true
    ∧ (countdownRun 1800 n).expireCount = 0 := by
  induction n with
  | zero => exact fun _ => ⟨rfl, rfl⟩
  | succ k ih =>
    intro h
    have hk := ih (by omega)
    have hne : countdownTick ((1800 : Int) * 1000) (((k + 1 : Nat) : Int) * 1000)
        ≠ .expire := by
      apply countdownTick_not_expire_of_pos
      have hk1 : ((k : Nat) : Int) ≤ 1798 := by exact_mod_cast (by omega : k ≤ 1798)
      push_cast
      linarith
    have hstep := countdownStep_not_expire 1800 (k + 1) (countdownRun 1800 k) hne
    rw [countdownRun_succ]
    exact ⟨hstep.1.trans hk.1, hstep.2.trans hk.2⟩

/-- The tick at second 1500, five minutes before the deadline, is a
warning with five minutes left. -/
theorem countdownTick_1500_warn :
    countdownTick ((1800 : Int) * 1000) (((1500 : Nat) : Int) * 1000) = .warn 5 := by
  norm_num [countdownTick, warningTimeMs, minutesLeftOf]
  decide

/-- At second 1800 the countdown clears itself and onExpire has run
exactly once. -/
theorem countdownRun_1800_expire :
    (countdownRun 1800 1800).alive = false
    ∧ (countdownRun 1800 1800).expireCount = 1 := by
  have h := countdownRun_1800_alive 1799 (by omega)
  have e1 : countdownRun 1800 1800 = countdownStep 1800 1800 (countdownRun 1800 1799) :=
    countdownRun_succ 1800 1799
  have htick : countdownTick ((1800 : Int) * 1000) (((1800 : Nat) : Int) * 1000)
      = .expire := by decide
  rw [e1, countdownStep_expire 1800 1800 (countdownRun 1800 1799) h.1 htick]
  exact ⟨rfl, by simp [h.2]⟩

/-- Once the countdown has cleared itself its trace never changes. -/
theorem countdownRun_dead_stable (e : Int) (n : Nat)
    (h : (countdownRun e n).alive = false) :
    ∀ m, n ≤ m → countdownRun e m = countdownRun e n := by
  intro m hm
  induction m, hm using Nat.le_induction with
  | base => rfl
  | succ m _ ih =>
    rw [countdownRun_succ, ih]
    exact countdownStep_dead e (m + 1) _ h

/-- C6: for the countdown armed with 1800 seconds, every tick whose
remaining time is positive and within the five minute window warns with
the rounded-up minutes left; the tick at second 1500 appends the warning
with five minutes; no expiry happens before second 1800; at second 1800
and ever after, onExpire has run exactly once and the interval is gone;
the wired onExpire handler forces the unauthenticated state and surfaces
the session-expired toast, which differs from the generic logout
toast. -/
theorem countdown_warning_expiry_scenario
    (n N : Nat)
    (hpos : 0 < (1800 : Int) * 1000 - (n : Int) * 1000)
    (hwin : (1800 : Int) * 1000 - (n : Int) * 1000 ≤ warningTimeMs)
    (hN : 1800 ≤ N) :
    countdownTick ((1800 : Int) * 1000) ((n : Int) * 1000)
        = .warn (minutesLeftOf ((1800 : Int) * 1000 - (n : Int) * 1000))
    ∧ (countdownRun 1800 1500).warnCalls = (countdownRun 1800 1499).warnCalls ++ [5]
    ∧ (countdownRun 1800 1799).expireCount = 0
    ∧ (countdownRun 1800 N).expireCount = 1
    ∧ (countdownRun 1800 N).alive = false
    ∧ (∀ st, (handleSessionExpired st).isAuthenticated = false
        ∧ (handleSessionExpired st).toasts = st.toasts ++ [sessionExpiredToast])
    ∧ sessionExpiredToast ≠ logoutSuccessToast := by
  have hstable := countdownRun_dead_stable 1800 1800 countdownRun_1800_expire.1 N hN
  refine ⟨?_, ?_, (countdownRun_1800_alive 1799 (by omega)).2, ?_, ?_, ?_, by decide⟩
  · have h1 : ¬ ((1800 : Int) * 1000 - (n : Int) * 1000 ≤ 0) := not_le.mpr hpos
    simp only [countdownTick, h1, if_false, hwin, if_true]
  · have halive := (countdownRun_1800_alive 1499 (by omega)).1
    have e1 : countdownRun 1800 1500 = countdownStep 1800 1500 (countdownRun 1800 1499) :=
      countdownRun_succ 1800 1499
    rw [e1, countdownStep_warn 1800 1500 (countdownRun 1800 1499) 5 halive
      countdownTick_1500_warn]
  · rw [hstable]
    exact countdownRun_1800_expire.2
  · rw [hstable]
    exact countdownRun_1800_expire.1
  · intro st
    exact ⟨rfl, rfl⟩

/-- Witness for C6: the tick at second 1500 warns with five minutes left
and after 1800 seconds onExpire has run exactly once. -/
theorem countdown_warning_expiry_scenario_witness :
    (0 < (1800 : Int) * 1000 - ((1500 : Nat) : Int) * 1000)
    ∧ ((1800 : Int) * 1000 - ((1500 : Nat) : Int) * 1000 ≤ warningTimeMs)
    ∧ (1800 ≤ 1800)
    ∧ countdownTick ((1800 : Int) * 1000) (((1500 : Nat) : Int) * 1000)
        = .warn (minutesLeftOf ((1800 : Int) * 1000 - ((1500 : Nat) : Int) * 1000))
    ∧ (countdownRun 1800 1800).expireCount = 1 :=
  ⟨by decide, by decide, by decide,
   (countdown_warning_expiry_scenario 1500 1800 (by decide) (by decide) (by decide)).1,
   (countdown_warning_expiry_scenario 1500 1800 (by decide) (by decide)
      (by decide)).2.2.2.1⟩

end ADFrontend
